import Mathlib

/-!
Shallow embedding of the JSON rules engine of `app/rules_engine_enhanced.py`
(class `JSONRulesEngine`).  Python dicts are modelled as ordered association
lists, heterogeneous patient-response values as the inductive `Value`,
floats as exact rationals, and the engine's methods as total Lean functions.
-/

namespace HealthSmart

/-- Python-style heterogeneous value: the types a patient-response mapping may
hold (None, bool, int, string, list). -/
inductive Value where
  | VNone
  | VBool (b : Bool)
  | VInt (n : Int)
  | VStr (s : String)
  | VList (items : List Value)

open Value

/-- Python truthiness `bool(x)`: None, False, 0, "", [] are falsy. -/
def truthy : Value → Bool
  | VNone => false
  | VBool b => b
  | VInt n => n != 0
  | VStr s => s != ""
  | VList items => !items.isEmpty

/-- Does the first character list begin the second one. -/
def listBegins : List Char → List Char → Bool
  | [], _ => true
  | _ :: _, [] => false
  | a :: as, b :: bs => a == b && listBegins as bs

/-- Does `needle` occur contiguously inside the second list. -/
def listHasSub (needle : List Char) : List Char → Bool
  | [] => needle.isEmpty
  | b :: bs => listBegins needle (b :: bs) || listHasSub needle bs

/-- Python `needle in hay` on strings (substring containment). -/
def hasSub (hay needle : String) : Bool :=
  listHasSub needle.toList hay.toList

/-- ASCII lowercasing of one character (Python `str.lower` on the ASCII
alphabets the rule keywords use). -/
def lowerChar (c : Char) : Char :=
  if c.isUpper then Char.ofNat (c.toNat + 32) else c

/-- ASCII `str.lower`, structurally recursive so that concrete evaluations
reduce. -/
def toLowerStr (s : String) : String :=
  String.mk (s.toList.map lowerChar)

/-- Accumulate decimal digits into a natural number. -/
def digitsToNat (cs : List Char) : Nat :=
  cs.foldl (fun a c => a * 10 + (c.toNat - 48)) 0

/-- Python `float(s)` on a string, as an exact rational: optional surrounding
spaces, optional sign, digits with an optional decimal point.  `none` models
the `ValueError` raised on anything else. -/
def parseFloat (s : String) : Option Rat :=
  let cs := ((s.toList.dropWhile (· == ' ')).reverse.dropWhile (· == ' ')).reverse
  let signAndRest : Int × List Char :=
    match cs with
    | '-' :: rest => (-1, rest)
    | '+' :: rest => (1, rest)
    | other => (1, other)
  let sign := signAndRest.1
  let body := signAndRest.2
  let intPart := body.takeWhile Char.isDigit
  let rest := body.dropWhile Char.isDigit
  match rest with
  | [] =>
      if intPart.isEmpty then none
      else some ((sign * (digitsToNat intPart : Int) : Int) : Rat)
  | '.' :: frac =>
      if frac.all Char.isDigit && !(intPart.isEmpty && frac.isEmpty) then
        some ((sign : Rat) *
          ((digitsToNat intPart : Rat) + (digitsToNat frac : Rat) / ((10 : Rat) ^ frac.length)))
      else none
  | _ => none

mutual

/-- Python `str(x)` with a flag telling whether strings are quoted (inside a
list Python renders the repr of each element). -/
def pyStrQ : Bool → Value → String
  | _, VNone => "None"
  | _, VBool b => if b then "True" else "False"
  | _, VInt n => toString n
  | q, VStr s => if q then "\x27" ++ s ++ "\x27" else s
  | _, VList items => "[" ++ pyStrQList items ++ "]"

/-- Comma-separated rendering of the elements of a Python list. -/
def pyStrQList : List Value → String
  | [] => ""
  | [v] => pyStrQ true v
  | v :: rest => pyStrQ true v ++ ", " ++ pyStrQList rest

end

/-- Python `str(x)` (string representation used when scanning response values). -/
def pyStr (v : Value) : String := pyStrQ false v

/-- Python `float(x)` on a heterogeneous value; `none` models the
`ValueError`/`TypeError` raised for unparseable strings, None and lists. -/
def pyFloat : Value → Option Rat
  | VNone => none
  | VBool b => some (if b then 1 else 0)
  | VInt n => some (n : Rat)
  | VStr s => parseFloat s
  | VList _ => none

/-- First-match lookup in an ordered association list (Python `dict.get`). -/
def alistGet {α : Type} (l : List (String × α)) (k : String) : Option α :=
  (l.find? (fun p => p.1 == k)).map (fun p => p.2)

/-- One requirement entry of a rule document (`req_config` in the source);
structure defaults are the `dict.get` fallbacks of `_check_requirement`.
An absent `question` is the empty string (both are falsy in Python). -/
structure ReqConfig where
  required : Bool := false
  type_ : String := "boolean"
  values : List String := []
  min_value : Option Rat := none
  max_value : Option Rat := none
  question : String := ""

/-- One symptom-table entry (`symptom_data` / `exclusion_config`). -/
structure SymptomData where
  symptoms : List String := []
  action : Option String := none
  message : Option String := none
  timeframe : Option String := none

/-- One per-service rule document; `special_enrollment_qualifying_events`
flattens `enrollment_periods["special_enrollment"]["qualifying_events"]`. -/
structure RuleDoc where
  requirements : List (String × ReqConfig) := []
  exclusion_criteria : List (String × SymptomData) := []
  critical_emergency_symptoms : List (String × SymptomData) := []
  urgent_but_not_emergency : List (String × SymptomData) := []
  special_enrollment_qualifying_events : List String := []
  fallback_options : List String := []

/-- One dict appended to `decision_trail`; each constructor mirrors the key
set of the corresponding append site in the source. -/
inductive TrailEntry where
  | req (requirement expectedType : String) (patientValue : Value) (met : Bool)
  | excl (exclusion : String) (action message : Option String)
  | emergencyCat (category : String) (action message : Option String)
  | urgentCat (category : String) (action timeframe : Option String)
  | enroll (status info : String)

/-- The dataclass `EligibilityResult`; `decision_trail` keeps the dataclass
default `None` as `Option.none`. -/
structure EligibilityResult where
  service : String
  qualified : Bool
  confidence : Rat
  reasoning : String
  next_questions : List String
  fallback_options : List String
  missing_criteria : List String
  decision_trail : Option (List TrailEntry) := none

/-- Patient responses: the accumulating key-to-value mapping. -/
abbrev Responses : Type := List (String × Value)

/-- `_normalize_service_name`: keyword normalization of a free-text service
name, defaulting to "rpm". -/
def normalize_service_name (service : String) : String :=
  let service_lower := toLowerStr service
  if hasSub service_lower "remote patient monitoring" || hasSub service_lower "rpm" then "rpm"
  else if hasSub service_lower "telehealth" || hasSub service_lower "virtual" then "telehealth"
  else if hasSub service_lower "insurance" then "insurance"
  else if hasSub service_lower "emergency" then "emergency"
  else if hasSub service_lower "pharmacy" then "pharmacy"
  else if hasSub service_lower "wellness" then "wellness"
  else "rpm"

/-- The haystack `" ".join(str(v).lower() for v in patient_responses.values() if v)`. -/
def allResponsesText (patient_responses : Responses) : String :=
  String.intercalate " "
    (patient_responses.filterMap fun p =>
      if truthy p.2 then some (toLowerStr (pyStr p.2)) else none)

/-- `_check_symptoms_present`: any symptom keyword occurs in the haystack. -/
def check_symptoms_present (patient_responses : Responses) (symptoms : List String) : Bool :=
  symptoms.any fun symptom => hasSub (allResponsesText patient_responses) (toLowerStr symptom)

/-- `if min_val and num_val < min_val: is_met = False` — the lower bound is
enforced only when `min_val` is truthy (present and nonzero). -/
def lowOk (b : Option Rat) (num_val : Rat) : Bool :=
  match b with
  | some m => !(m != 0 && num_val < m)
  | none => true

/-- `if max_val and num_val > max_val: is_met = False`. -/
def highOk (b : Option Rat) (num_val : Rat) : Bool :=
  match b with
  | some m => !(m != 0 && num_val > m)
  | none => true

/-- The `"number"` branch of `_check_requirement`: a falsy value is coerced to
`0` (`float(patient_value) if patient_value else 0`), an unparseable truthy
value is "not met" (the caught `ValueError`/`TypeError`), and each bound is
checked by `lowOk`/`highOk`. -/
def checkNumberReq (req_config : ReqConfig) (patient_value : Value) : Bool :=
  match (if truthy patient_value then pyFloat patient_value else some 0) with
  | none => false
  | some num_val =>
      lowOk req_config.min_value num_val && highOk req_config.max_value num_val

/-- The default branch of `_check_requirement`: value present and not `""`. -/
def existsNonEmpty : Value → Bool
  | VNone => false
  | VStr s => s != ""
  | _ => true

/-- `_check_requirement`: evaluate one requirement, returning the met flag and
the decision-trail entry appended by the source. -/
def check_requirement (patient_responses : Responses) (req_name : String)
    (req_config : ReqConfig) : Bool × TrailEntry :=
  let patient_value := (alistGet patient_responses req_name).getD VNone
  let req_type := req_config.type_
  let is_met :=
    if req_type == "boolean" then truthy patient_value
    else if req_type == "contains_any" then
      truthy patient_value &&
        req_config.values.any (fun val => hasSub (toLowerStr (pyStr patient_value)) (toLowerStr val))
    else if req_type == "number" then checkNumberReq req_config patient_value
    else existsNonEmpty patient_value
  (is_met, TrailEntry.req req_name req_type patient_value is_met)

/-- The requirement loop shared by the evaluators: walk the requirement
mapping in order, and for each `required` entry sort its name into the met or
missing list and record a trail entry. -/
def checkRequiredReqs (patient_responses : Responses) :
    List (String × ReqConfig) → List String × List String × List TrailEntry
  | [] => ([], [], [])
  | (req_name, req_config) :: rest =>
      let acc := checkRequiredReqs patient_responses rest
      if req_config.required then
        let r := check_requirement patient_responses req_name req_config
        if r.1 then (req_name :: acc.1, acc.2.1, r.2 :: acc.2.2)
        else (acc.1, req_name :: acc.2.1, r.2 :: acc.2.2)
      else acc

/-- `len([r for r in requirements.values() if r.get("required", False)])`. -/
def requiredCount (requirements : List (String × ReqConfig)) : Nat :=
  (requirements.filter fun p => p.2.required).length

/-- `_check_exclusions`: first exclusion entry whose symptoms are present
wins; returns the excluded flag and the appended trail entries. -/
def check_exclusions (patient_responses : Responses) :
    List (String × SymptomData) → Bool × List TrailEntry
  | [] => (false, [])
  | (exclusion_name, exclusion_config) :: rest =>
      if check_symptoms_present patient_responses exclusion_config.symptoms then
        (true, [TrailEntry.excl exclusion_name exclusion_config.action exclusion_config.message])
      else check_exclusions patient_responses rest

/-- `_check_enrollment_period`: first qualifying event found in the haystack
gives SEP eligibility; otherwise eligibility is assumed.  Always `true`. -/
def check_enrollment_period (patient_responses : Responses)
    (sep_events : List String) : Bool × TrailEntry :=
  match sep_events.find? (fun event => hasSub (allResponsesText patient_responses) (toLowerStr event)) with
  | some event => (true, TrailEntry.enroll "SEP_qualified" event)
  | none => (true, TrailEntry.enroll "assumed_eligible" "General enrollment assistance available")

/-- The hardcoded chronic-conditions display list of
`_format_question_with_options`. -/
def chronicConditionsDisplay : List String :=
  ["Type 1 or Type 2 Diabetes", "High Blood Pressure (Hypertension)",
   "COPD (Chronic Obstructive Pulmonary Disease)", "Heart Failure or other heart conditions",
   "Chronic Kidney Disease", "Asthma", "Other chronic condition"]

/-- The hardcoded insurance-options display list of
`_format_question_with_options`. -/
def insuranceOptionsDisplay : List String :=
  ["Medicare (Part A, Part B, or both)", "Medicaid", "Private insurance (through employer)",
   "Private insurance (self-purchased)", "Other government program",
   "No, I don\x27t have insurance"]

/-- Bulleted rendering of an option list. -/
def bulleted (items : List String) : String :=
  String.intercalate "\n" (items.map fun x => "• " ++ x)

/-- `_format_question_with_options`. -/
def format_question_with_options (question_text : String) (req_config : ReqConfig)
    (req_name : String) : String :=
  let rn := toLowerStr req_name
  if (hasSub rn "chronic" || hasSub rn "conditions") && !req_config.values.isEmpty then
    question_text ++ "\n" ++ bulleted chronicConditionsDisplay
  else if hasSub rn "insurance" then
    question_text ++ "\n" ++ bulleted insuranceOptionsDisplay
  else if req_config.values.length > 2 then
    question_text ++ "\n" ++ bulleted (req_config.values.take 7)
  else question_text

/-- `_generate_next_questions_json`: at most the first missing criterion
(`missing_criteria[:1]`) contributes a question, and only when its
requirement config carries a truthy question text. -/
def generate_next_questions_json (_patient_responses : Responses)
    (requirements : List (String × ReqConfig)) (missing_criteria : List String) : List String :=
  (missing_criteria.take 1).filterMap fun missing =>
    let req_config := (alistGet requirements missing).getD {}
    if req_config.question != "" then
      some (format_question_with_options req_config.question req_config missing)
    else none

/-- `_generate_reasoning`. -/
def generate_reasoning (missing_criteria : List String) (excluded : Bool)
    (service : String) : String :=
  if excluded then "❌ Excluded from " ++ service ++ " due to safety or clinical criteria"
  else if !missing_criteria.isEmpty then
    "Missing " ++ toString missing_criteria.length ++ " required criteria: " ++
      String.intercalate ", " missing_criteria
  else "✅ Meets all requirements for " ++ service

/-- `_generate_insurance_reasoning`. -/
def generate_insurance_reasoning (missing_criteria : List String)
    (enrollment_eligible : Bool) : String :=
  if !missing_criteria.isEmpty && !enrollment_eligible then
    "Missing requirements: " ++ String.intercalate ", " missing_criteria ++
      " AND not in enrollment period"
  else if !missing_criteria.isEmpty then
    "Missing " ++ toString missing_criteria.length ++ " required criteria: " ++
      String.intercalate ", " missing_criteria
  else if !enrollment_eligible then
    "Not currently in open enrollment period and no qualifying life events detected"
  else "✅ Meets all requirements and eligible for enrollment"

/-- `_evaluate_rpm_eligibility_json`. -/
def evaluate_rpm_eligibility_json (patient_responses : Responses) (rule : RuleDoc) :
    EligibilityResult :=
  let checked := checkRequiredReqs patient_responses rule.requirements
  let met_requirements := checked.1
  let missing_criteria := checked.2.1
  let exclResult := check_exclusions patient_responses rule.exclusion_criteria
  let excluded := exclResult.1
  let total_requirements := requiredCount rule.requirements
  let met_count := met_requirements.length
  let qualified := (met_count == total_requirements) && !excluded
  let confidence : Rat :=
    if total_requirements > 0 then (met_count : Rat) / (total_requirements : Rat) else 0
  let reasoning :=
    if excluded then "❌ Excluded due to emergency symptoms or other exclusion criteria"
    else if !missing_criteria.isEmpty then
      "Missing " ++ toString missing_criteria.length ++ " required criteria: " ++
        String.intercalate ", " missing_criteria
    else "✅ Meets all " ++ toString total_requirements ++ " requirements for RPM"
  { service := "Remote Patient Monitoring (RPM)"
    qualified := qualified
    confidence := confidence
    reasoning := reasoning
    next_questions := generate_next_questions_json patient_responses rule.requirements missing_criteria
    fallback_options := rule.fallback_options
    missing_criteria := missing_criteria
    decision_trail := some (checked.2.2 ++ exclResult.2) }

/-- `_evaluate_telehealth_eligibility_json`. -/
def evaluate_telehealth_eligibility_json (patient_responses : Responses) (rule : RuleDoc) :
    EligibilityResult :=
  let checked := checkRequiredReqs patient_responses rule.requirements
  let met_requirements := checked.1
  let missing_criteria := checked.2.1
  let exclResult := check_exclusions patient_responses rule.exclusion_criteria
  let excluded := exclResult.1
  let total_requirements := requiredCount rule.requirements
  let met_count := met_requirements.length
  let qualified := decide (met_count ≥ total_requirements) && !excluded
  let confidence : Rat :=
    if total_requirements > 0 then (met_count : Rat) / (total_requirements : Rat) else 1
  { service := "Telehealth / Virtual Primary Care"
    qualified := qualified
    confidence := confidence
    reasoning := generate_reasoning missing_criteria excluded "Telehealth"
    next_questions := generate_next_questions_json patient_responses rule.requirements missing_criteria
    fallback_options := rule.fallback_options
    missing_criteria := missing_criteria
    decision_trail := some (checked.2.2 ++ exclResult.2) }

/-- `_evaluate_insurance_eligibility_json`. -/
def evaluate_insurance_eligibility_json (patient_responses : Responses) (rule : RuleDoc) :
    EligibilityResult :=
  let checked := checkRequiredReqs patient_responses rule.requirements
  let met_requirements := checked.1
  let missing_criteria := checked.2.1
  let enrollResult :=
    check_enrollment_period patient_responses rule.special_enrollment_qualifying_events
  let enrollment_eligible := enrollResult.1
  let total_requirements := requiredCount rule.requirements
  let met_count := met_requirements.length
  let qualified := decide (met_count ≥ total_requirements) && enrollment_eligible
  let confidence : Rat :=
    if total_requirements > 0 then
      (met_count : Rat) / (total_requirements : Rat) * (7 / 10) +
        (if enrollment_eligible then 3 / 10 else 0)
    else 0
  { service := "Insurance Enrollment"
    qualified := qualified
    confidence := confidence
    reasoning := generate_insurance_reasoning missing_criteria enrollment_eligible
    next_questions := generate_next_questions_json patient_responses rule.requirements missing_criteria
    fallback_options := rule.fallback_options
    missing_criteria := missing_criteria
    decision_trail := some (checked.2.2 ++ [enrollResult.2]) }

/-- The first symptom-table category whose symptoms are present (the
`for ... break` loops of `_evaluate_emergency_screening_json`). -/
def firstSymptomMatch (patient_responses : Responses) :
    List (String × SymptomData) → Option (String × SymptomData)
  | [] => none
  | (category, symptom_data) :: rest =>
      if check_symptoms_present patient_responses symptom_data.symptoms then
        some (category, symptom_data)
      else firstSymptomMatch patient_responses rest

/-- `_evaluate_emergency_screening_json`: critical table first, then urgent,
else the no-emergency result. -/
def evaluate_emergency_screening_json (patient_responses : Responses) (rule : RuleDoc) :
    EligibilityResult :=
  match firstSymptomMatch patient_responses rule.critical_emergency_symptoms with
  | some (category, symptom_data) =>
      { service := "Emergency Screening"
        qualified := true
        confidence := 1
        reasoning := "🚨 Emergency symptoms detected - immediate medical attention required"
        next_questions := []
        fallback_options := []
        missing_criteria := []
        decision_trail :=
          some [TrailEntry.emergencyCat category symptom_data.action symptom_data.message] }
  | none =>
      match firstSymptomMatch patient_responses rule.urgent_but_not_emergency with
      | some (category, symptom_data) =>
          { service := "Emergency Screening"
            qualified := true
            confidence := 8 / 10
            reasoning := "⚠️ Urgent symptoms detected - seek medical care within hours"
            next_questions := []
            fallback_options := ["Urgent care", "Telehealth consultation"]
            missing_criteria := []
            decision_trail :=
              some [TrailEntry.urgentCat category symptom_data.action symptom_data.timeframe] }
      | none =>
          { service := "Emergency Screening"
            qualified := false
            confidence := 9 / 10
            reasoning := "✅ No emergency symptoms detected - routine care appropriate"
            next_questions := ["What specific health concerns would you like help with?"]
            fallback_options := ["Telehealth", "Primary care appointment", "Wellness programs"]
            missing_criteria := []
            decision_trail := some [] }

/-- `_evaluate_generic_eligibility_json`. -/
def evaluate_generic_eligibility_json (patient_responses : Responses) (service : String)
    (rule : RuleDoc) : EligibilityResult :=
  let checked := checkRequiredReqs patient_responses rule.requirements
  let met_requirements := checked.1
  let missing_criteria := checked.2.1
  let total_requirements := requiredCount rule.requirements
  let met_count := met_requirements.length
  let qualified := decide (met_count ≥ total_requirements)
  let confidence : Rat :=
    if total_requirements > 0 then (met_count : Rat) / (total_requirements : Rat) else 1
  { service := service
    qualified := qualified
    confidence := confidence
    reasoning := generate_reasoning missing_criteria false service
    next_questions := generate_next_questions_json patient_responses rule.requirements missing_criteria
    fallback_options := rule.fallback_options
    missing_criteria := missing_criteria
    decision_trail := some checked.2.2 }

/-- `evaluate_patient_against_rules` on a loaded rule store (the
`self.rules` mapping keyed by normalized service name). -/
def evaluate_patient_against_rules (rules : List (String × RuleDoc))
    (patient_responses : Responses) (service : String) : EligibilityResult :=
  let service_key := normalize_service_name service
  match alistGet rules service_key with
  | none =>
      { service := service
        qualified := false
        confidence := 0
        reasoning := "No rules found for service: " ++ service
        next_questions := []
        fallback_options := []
        missing_criteria := ["service_definition"]
        decision_trail := none }
  | some rule =>
      if service_key == "rpm" then evaluate_rpm_eligibility_json patient_responses rule
      else if service_key == "telehealth" then
        evaluate_telehealth_eligibility_json patient_responses rule
      else if service_key == "insurance" then
        evaluate_insurance_eligibility_json patient_responses rule
      else if service_key == "emergency" then
        evaluate_emergency_screening_json patient_responses rule
      else evaluate_generic_eligibility_json patient_responses service rule

/-- One entry of a question category in `assessment_questions.json`
(`{"id": ..., "text": ...}`); an absent text is the empty string (falsy). -/
structure AQuestion where
  id : String := ""
  text : String := ""

/-- One question category (`question_categories[cat]["questions"]`). -/
structure QuestionCategory where
  questions : List AQuestion := []

/-- The assessment rule document slice used by `_get_questions_from_json_db`:
`question_categories` and `question_flow_logic.service_specific[svc].required_questions`. -/
structure AssessmentRules where
  question_categories : List (String × QuestionCategory) := []
  service_specific : List (String × List String) := []

/-- The conversation context passed to the question selector: answered keys
plus the `_asked_questions` ledger stored inside it. -/
structure AssessContext where
  answers : List (String × Value) := []
  asked_questions : List String := []

/-- `question_id not in context or not context[question_id]`. -/
def unanswered (ctx : AssessContext) (question_id : String) : Bool :=
  !truthy ((alistGet ctx.answers question_id).getD VNone)

/-- Text of the first question with a matching id in one category. -/
def findQInList (qs : List AQuestion) (question_id : String) : Option String :=
  (qs.find? (fun q => q.id == question_id)).map (fun q => q.text)

/-- `_find_question_by_id`: scan the categories in order. -/
def find_question_by_id (question_categories : List (String × QuestionCategory))
    (question_id : String) : Option String :=
  match question_categories with
  | [] => none
  | (_, cat) :: rest =>
      match findQInList cat.questions question_id with
      | some t => some t
      | none => find_question_by_id rest question_id

/-- The service-specific loop of `_get_questions_from_json_db`: first
required question id that is unanswered, not yet asked, and has truthy text. -/
def selectServiceQuestion (ctx : AssessContext)
    (question_categories : List (String × QuestionCategory)) :
    List String → Option (String × String)
  | [] => none
  | question_id :: rest =>
      if unanswered ctx question_id && !ctx.asked_questions.contains question_id then
        match find_question_by_id question_categories question_id with
        | some question_text =>
            if question_text != "" then some (question_id, question_text)
            else selectServiceQuestion ctx question_categories rest
        | none => selectServiceQuestion ctx question_categories rest
      else selectServiceQuestion ctx question_categories rest

/-- The hardcoded default priority categories. -/
def priorityCategories : List String :=
  ["emergency_symptoms", "chronic_conditions", "insurance_status", "age"]

/-- First unanswered, not-yet-asked question in one category list. -/
def selectFromQuestions (ctx : AssessContext) : List AQuestion → Option (String × String)
  | [] => none
  | q :: rest =>
      if unanswered ctx q.id && !ctx.asked_questions.contains q.id then some (q.id, q.text)
      else selectFromQuestions ctx rest

/-- The priority-category loop of `_get_questions_from_json_db`. -/
def selectPriorityQuestion (ctx : AssessContext)
    (question_categories : List (String × QuestionCategory)) :
    List String → Option (String × String)
  | [] => none
  | category :: rest =>
      match alistGet question_categories category with
      | some cat =>
          match selectFromQuestions ctx cat.questions with
          | some r => some r
          | none => selectPriorityQuestion ctx question_categories rest
      | none => selectPriorityQuestion ctx question_categories rest

/-- The service-specific part of the selection: only when a service key is
given and has a `required_questions` flow. -/
def selectFromServiceFlow (asmt : AssessmentRules) (ctx : AssessContext) :
    Option String → Option (String × String)
  | some service_key =>
      match alistGet asmt.service_specific service_key with
      | some required_questions =>
          selectServiceQuestion ctx asmt.question_categories required_questions
      | none => none
  | none => none

/-- The selection performed by `_get_questions_from_json_db`: the chosen
question id and text, service-specific flow first, then priority categories. -/
def selectAssessmentQuestion (asmt : AssessmentRules) (ctx : AssessContext)
    (service_type : Option String) : Option (String × String) :=
  match selectFromServiceFlow asmt ctx (service_type.map normalize_service_name) with
  | some r => some r
  | none => selectPriorityQuestion ctx asmt.question_categories priorityCategories

/-- `_get_questions_from_json_db`: returns the question list and the updated
context whose `_asked_questions` ledger records the chosen question id. -/
def get_questions_from_json_db (asmt : AssessmentRules) (ctx : AssessContext)
    (service_type : Option String) : List String × AssessContext :=
  match selectAssessmentQuestion asmt ctx service_type with
  | some r =>
      ([r.2], { ctx with asked_questions := ctx.asked_questions ++ [r.1] })
  | none => (["How can I help you with your healthcare needs today?"], ctx)

/-! ## Structural lemmas about the requirement loop -/

/-- Every required requirement lands in exactly one of the met and missing
lists, so their lengths add up to the required count. -/
theorem checkRequiredReqs_length_add (patient_responses : Responses)
    (reqs : List (String × ReqConfig)) :
    (checkRequiredReqs patient_responses reqs).1.length +
      (checkRequiredReqs patient_responses reqs).2.1.length = requiredCount reqs := by
  induction reqs with
  | nil => rfl
  | cons hd tl ih =>
      obtain ⟨req_name, req_config⟩ := hd
      by_cases hreq : req_config.required
      · by_cases hmet : (check_requirement patient_responses req_name req_config).1
        · simp [checkRequiredReqs, requiredCount, List.filter_cons, hreq, hmet] at *
          omega
        · simp [checkRequiredReqs, requiredCount, List.filter_cons, hreq, hmet] at *
          omega
      · simp [checkRequiredReqs, requiredCount, List.filter_cons, hreq] at *
        exact ih

/-- The missing list is empty exactly when the met count reaches the
required count. -/
theorem missing_nil_iff_met_eq (patient_responses : Responses)
    (reqs : List (String × ReqConfig)) :
    (checkRequiredReqs patient_responses reqs).2.1 = [] ↔
      (checkRequiredReqs patient_responses reqs).1.length = requiredCount reqs := by
  have h := checkRequiredReqs_length_add patient_responses reqs
  constructor
  · intro hnil
    rw [hnil] at h
    simpa using h
  · intro heq
    have : (checkRequiredReqs patient_responses reqs).2.1.length = 0 := by omega
    exact List.length_eq_zero.mp this

/-- The missing list is empty exactly when the met count is at least the
required count. -/
theorem missing_nil_iff_met_ge (patient_responses : Responses)
    (reqs : List (String × ReqConfig)) :
    (checkRequiredReqs patient_responses reqs).2.1 = [] ↔
      (checkRequiredReqs patient_responses reqs).1.length ≥ requiredCount reqs := by
  have h := checkRequiredReqs_length_add patient_responses reqs
  rw [missing_nil_iff_met_eq]
  omega

/-- A required requirement whose check fails contributes its name to the
missing list. -/
theorem mem_missing_of_not_met (patient_responses : Responses)
    (reqs : List (String × ReqConfig)) (req_name : String) (req_config : ReqConfig)
    (hmem : (req_name, req_config) ∈ reqs) (hreq : req_config.required = true)
    (hnot : (check_requirement patient_responses req_name req_config).1 = false) :
    req_name ∈ (checkRequiredReqs patient_responses reqs).2.1 := by
  induction reqs with
  | nil => cases hmem
  | cons hd tl ih =>
      obtain ⟨n, c⟩ := hd
      rcases List.mem_cons.mp hmem with heq | htl
      · cases heq
        simp [checkRequiredReqs, hreq, hnot]
      · have hmem' := ih htl
        by_cases hr : c.required
        · by_cases hm : (check_requirement patient_responses n c).1
          · simpa [checkRequiredReqs, hr, hm] using hmem'
          · simp [checkRequiredReqs, hr, hm]
            exact Or.inr hmem'
        · simpa [checkRequiredReqs, hr] using hmem'

/-- If every required requirement's check succeeds, nothing is missing. -/
theorem missing_nil_of_all_met (patient_responses : Responses)
    (reqs : List (String × ReqConfig))
    (hall : ∀ req_name req_config, (req_name, req_config) ∈ reqs →
      req_config.required = true →
      (check_requirement patient_responses req_name req_config).1 = true) :
    (checkRequiredReqs patient_responses reqs).2.1 = [] := by
  induction reqs with
  | nil => rfl
  | cons hd tl ih =>
      obtain ⟨n, c⟩ := hd
      have ih' := ih fun rn rc hm hr => hall rn rc (List.mem_cons_of_mem _ hm) hr
      by_cases hr : c.required
      · have hm := hall n c (List.mem_cons_self _ _) hr
        simp [checkRequiredReqs, hr, hm, ih']
      · simpa [checkRequiredReqs, hr] using ih'

/-! ## Field characterizations of the per-service evaluators -/

/-- The enrollment-period check of the source always reports eligibility
(qualifying event found, or the assumed-eligible fallback). -/
theorem check_enrollment_period_always_true (patient_responses : Responses)
    (sep_events : List String) :
    (check_enrollment_period patient_responses sep_events).1 = true := by
  unfold check_enrollment_period
  cases h : sep_events.find? fun event =>
      hasSub (allResponsesText patient_responses) (toLowerStr event) <;> simp [h]

/-- RPM qualification is exactly: nothing missing and not excluded. -/
theorem rpm_qualified_iff (patient_responses : Responses) (rule : RuleDoc) :
    (evaluate_rpm_eligibility_json patient_responses rule).qualified = true ↔
      (evaluate_rpm_eligibility_json patient_responses rule).missing_criteria = [] ∧
        (check_exclusions patient_responses rule.exclusion_criteria).1 = false := by
  have h := missing_nil_iff_met_eq patient_responses rule.requirements
  simp only [evaluate_rpm_eligibility_json, Bool.and_eq_true, beq_iff_eq, Bool.not_eq_true']
  rw [h]

/-- Telehealth qualification is exactly: nothing missing and not excluded. -/
theorem telehealth_qualified_iff (patient_responses : Responses) (rule : RuleDoc) :
    (evaluate_telehealth_eligibility_json patient_responses rule).qualified = true ↔
      (evaluate_telehealth_eligibility_json patient_responses rule).missing_criteria = [] ∧
        (check_exclusions patient_responses rule.exclusion_criteria).1 = false := by
  have h := missing_nil_iff_met_ge patient_responses rule.requirements
  simp only [evaluate_telehealth_eligibility_json, Bool.and_eq_true, decide_eq_true_eq,
    Bool.not_eq_true', ge_iff_le]
  rw [h]

/-- Insurance qualification is exactly: nothing missing (the enrollment
check is always true). -/
theorem insurance_qualified_iff (patient_responses : Responses) (rule : RuleDoc) :
    (evaluate_insurance_eligibility_json patient_responses rule).qualified = true ↔
      (evaluate_insurance_eligibility_json patient_responses rule).missing_criteria = [] := by
  have h := missing_nil_iff_met_ge patient_responses rule.requirements
  have he := check_enrollment_period_always_true patient_responses
    rule.special_enrollment_qualifying_events
  simp only [evaluate_insurance_eligibility_json, Bool.and_eq_true, decide_eq_true_eq, he]
  rw [h]
  simp

/-- Generic qualification is exactly: nothing missing. -/
theorem generic_qualified_iff (patient_responses : Responses) (service : String)
    (rule : RuleDoc) :
    (evaluate_generic_eligibility_json patient_responses service rule).qualified = true ↔
      (evaluate_generic_eligibility_json patient_responses service rule).missing_criteria = [] := by
  have h := missing_nil_iff_met_ge patient_responses rule.requirements
  simp only [evaluate_generic_eligibility_json, decide_eq_true_eq]
  rw [h]

/-! ## Claim C1 -/

/-- C1 (amended): for every requirement-counting service — rpm, telehealth,
insurance, and the generic pharmacy/wellness path, but not the emergency
screening service — `qualified` is true iff `missing_criteria` is empty and
the exclusion scan the evaluator performs reports not excluded (rpm and
telehealth scan `exclusion_criteria`; insurance and the generic path perform
no exclusion scan).  If every required field's check succeeds and no
exclusion keyword matches then `qualified = true`; if a required field's
check fails then `qualified = false` and its name is in `missing_criteria`;
an unknown service yields `qualified = false` with nonempty
`missing_criteria`. -/
theorem claim1_qualified_invariant (patient_responses : Responses) (rule : RuleDoc)
    (rules : List (String × RuleDoc)) (service : String) :
    ((evaluate_rpm_eligibility_json patient_responses rule).qualified = true ↔
      (evaluate_rpm_eligibility_json patient_responses rule).missing_criteria = [] ∧
        (check_exclusions patient_responses rule.exclusion_criteria).1 = false)
    ∧ ((evaluate_telehealth_eligibility_json patient_responses rule).qualified = true ↔
      (evaluate_telehealth_eligibility_json patient_responses rule).missing_criteria = [] ∧
        (check_exclusions patient_responses rule.exclusion_criteria).1 = false)
    ∧ ((evaluate_insurance_eligibility_json patient_responses rule).qualified = true ↔
      (evaluate_insurance_eligibility_json patient_responses rule).missing_criteria = [])
    ∧ ((evaluate_generic_eligibility_json patient_responses service rule).qualified = true ↔
      (evaluate_generic_eligibility_json patient_responses service rule).missing_criteria = [])
    ∧ (alistGet rules (normalize_service_name service) = none →
        (evaluate_patient_against_rules rules patient_responses service).qualified = false ∧
        (evaluate_patient_against_rules rules patient_responses service).missing_criteria ≠ [])
    ∧ (∀ req_name req_config, (req_name, req_config) ∈ rule.requirements →
        req_config.required = true →
        (check_requirement patient_responses req_name req_config).1 = false →
        req_name ∈ (evaluate_rpm_eligibility_json patient_responses rule).missing_criteria ∧
          (evaluate_rpm_eligibility_json patient_responses rule).qualified = false)
    ∧ ((∀ req_name req_config, (req_name, req_config) ∈ rule.requirements →
          req_config.required = true →
          (check_requirement patient_responses req_name req_config).1 = true) →
        (check_exclusions patient_responses rule.exclusion_criteria).1 = false →
        (evaluate_rpm_eligibility_json patient_responses rule).qualified = true) := by
  refine ⟨rpm_qualified_iff patient_responses rule,
    telehealth_qualified_iff patient_responses rule,
    insurance_qualified_iff patient_responses rule,
    generic_qualified_iff patient_responses service rule, ?_, ?_, ?_⟩
  · intro hnone
    simp [evaluate_patient_against_rules, hnone]
  · intro req_name req_config hmem hreq hnot
    have hmiss : req_name ∈
        (evaluate_rpm_eligibility_json patient_responses rule).missing_criteria := by
      simpa [evaluate_rpm_eligibility_json] using
        mem_missing_of_not_met patient_responses rule.requirements req_name req_config
          hmem hreq hnot
    refine ⟨hmiss, ?_⟩
    by_contra hq
    have hq' : (evaluate_rpm_eligibility_json patient_responses rule).qualified = true := by
      revert hq
      cases (evaluate_rpm_eligibility_json patient_responses rule).qualified <;> simp
    have := ((rpm_qualified_iff patient_responses rule).mp hq').1
    rw [this] at hmiss
    cases hmiss
  · intro hall hexcl
    have hmiss := missing_nil_of_all_met patient_responses rule.requirements hall
    refine (rpm_qualified_iff patient_responses rule).mpr ⟨?_, hexcl⟩
    simpa [evaluate_rpm_eligibility_json] using hmiss

/-- An emergency rule document used as the C1 counterexample input. -/
def emergencyDocEx : RuleDoc :=
  { critical_emergency_symptoms := [("cardiac_symptoms", { symptoms := ["chest pain"] })],
    urgent_but_not_emergency := [("persistent_fever", { symptoms := ["fever"] })] }

/-- C1 counterexample: for the known service "emergency" with no symptom
reported, `missing_criteria` is empty and the patient is not excluded, yet
`qualified = false` — so the invariant does not hold for every known
service. -/
theorem claim1_counterexample :
    (evaluate_patient_against_rules [("emergency", emergencyDocEx)] [] "emergency").qualified
        = false ∧
      (evaluate_patient_against_rules [("emergency", emergencyDocEx)] []
        "emergency").missing_criteria = [] ∧
      (check_exclusions [] emergencyDocEx.exclusion_criteria).1 = false := by
  refine ⟨by decide, by decide, by decide⟩

/-- C1 witness: the unknown-service branch of the amended invariant at a
concrete input. -/
theorem claim1_witness :
    (evaluate_patient_against_rules ([] : List (String × RuleDoc)) [] "telehealth").qualified
        = false ∧
      (evaluate_patient_against_rules ([] : List (String × RuleDoc)) []
        "telehealth").missing_criteria ≠ [] :=
  (claim1_qualified_invariant [] {} [] "telehealth").2.2.2.2.1 rfl

/-! ## Claim C2 -/

/-- A symptom table has a first match exactly when some category matches. -/
theorem firstSymptomMatch_isSome (patient_responses : Responses)
    (l : List (String × SymptomData)) :
    (firstSymptomMatch patient_responses l).isSome = true ↔
      ∃ p ∈ l, check_symptoms_present patient_responses p.2.symptoms = true := by
  induction l with
  | nil => simp [firstSymptomMatch]
  | cons hd tl ih =>
      obtain ⟨c, d⟩ := hd
      by_cases h : check_symptoms_present patient_responses d.symptoms = true
      · simp [firstSymptomMatch, h]
      · rw [Bool.not_eq_true] at h
        simp [firstSymptomMatch, h, ih]

/-- Scanning short-circuits: the first matching category wins, whatever
follows it. -/
theorem firstSymptomMatch_first_wins (patient_responses : Responses)
    (pre post : List (String × SymptomData)) (p : String × SymptomData)
    (hpre : ∀ q ∈ pre, check_symptoms_present patient_responses q.2.symptoms = false)
    (hp : check_symptoms_present patient_responses p.2.symptoms = true) :
    firstSymptomMatch patient_responses (pre ++ p :: post) = some p := by
  induction pre with
  | nil =>
      obtain ⟨c, d⟩ := p
      simp only [List.nil_append, firstSymptomMatch]
      rw [hp]
      rfl
  | cons hd tl ih =>
      have h0 := hpre hd (List.mem_cons_self _ _)
      obtain ⟨c, d⟩ := hd
      simp only [List.cons_append, firstSymptomMatch]
      rw [h0]
      exact ih fun q hq => hpre q (List.mem_cons_of_mem _ hq)

/-- C2: the emergency screening evaluator checks the critical tables first
and short-circuits on the first matching category; any critical match
returns the critical-tier result (even when an urgent keyword also matches),
otherwise any urgent match returns the urgent-tier result, otherwise the
no-emergency result. -/
theorem claim2_emergency_triage (patient_responses : Responses) (rule : RuleDoc) :
    (∀ category symptom_data,
      firstSymptomMatch patient_responses rule.critical_emergency_symptoms =
          some (category, symptom_data) →
      evaluate_emergency_screening_json patient_responses rule =
        { service := "Emergency Screening", qualified := true, confidence := 1,
          reasoning := "🚨 Emergency symptoms detected - immediate medical attention required",
          next_questions := [], fallback_options := [], missing_criteria := [],
          decision_trail := some [TrailEntry.emergencyCat category symptom_data.action
            symptom_data.message] })
    ∧ (∀ category symptom_data,
      firstSymptomMatch patient_responses rule.critical_emergency_symptoms = none →
      firstSymptomMatch patient_responses rule.urgent_but_not_emergency =
          some (category, symptom_data) →
      evaluate_emergency_screening_json patient_responses rule =
        { service := "Emergency Screening", qualified := true, confidence := 8 / 10,
          reasoning := "⚠️ Urgent symptoms detected - seek medical care within hours",
          next_questions := [], fallback_options := ["Urgent care", "Telehealth consultation"],
          missing_criteria := [],
          decision_trail := some [TrailEntry.urgentCat category symptom_data.action
            symptom_data.timeframe] })
    ∧ (firstSymptomMatch patient_responses rule.critical_emergency_symptoms = none →
      firstSymptomMatch patient_responses rule.urgent_but_not_emergency = none →
      evaluate_emergency_screening_json patient_responses rule =
        { service := "Emergency Screening", qualified := false, confidence := 9 / 10,
          reasoning := "✅ No emergency symptoms detected - routine care appropriate",
          next_questions := ["What specific health concerns would you like help with?"],
          fallback_options := ["Telehealth", "Primary care appointment", "Wellness programs"],
          missing_criteria := [], decision_trail := some [] })
    ∧ (∀ l : List (String × SymptomData),
      (firstSymptomMatch patient_responses l).isSome = true ↔
        ∃ p ∈ l, check_symptoms_present patient_responses p.2.symptoms = true)
    ∧ (∀ (pre post : List (String × SymptomData)) (p : String × SymptomData),
      (∀ q ∈ pre, check_symptoms_present patient_responses q.2.symptoms = false) →
      check_symptoms_present patient_responses p.2.symptoms = true →
      firstSymptomMatch patient_responses (pre ++ p :: post) = some p) := by
  refine ⟨?_, ?_, ?_, firstSymptomMatch_isSome patient_responses,
    firstSymptomMatch_first_wins patient_responses⟩
  · intro category symptom_data h
    unfold evaluate_emergency_screening_json
    rw [h]
  · intro category symptom_data hc hu
    unfold evaluate_emergency_screening_json
    rw [hc, hu]
  · intro hc hu
    unfold evaluate_emergency_screening_json
    rw [hc, hu]

/-- C2 witness: a response matching both a critical and an urgent keyword
yields the critical-tier result. -/
theorem claim2_witness :
    evaluate_emergency_screening_json
        [("symptoms", VStr "I have chest pain and a high fever")] emergencyDocEx =
      { service := "Emergency Screening", qualified := true, confidence := 1,
        reasoning := "🚨 Emergency symptoms detected - immediate medical attention required",
        next_questions := [], fallback_options := [], missing_criteria := [],
        decision_trail := some [TrailEntry.emergencyCat "cardiac_symptoms" none none] } :=
  (claim2_emergency_triage [("symptoms", VStr "I have chest pain and a high fever")]
    emergencyDocEx).1 "cardiac_symptoms" { symptoms := ["chest pain"] } rfl

/-! ## Claim C3 -/

/-- C3 (amended): with an empty required set, the telehealth and generic
evaluators return confidence 1.0, but the rpm and insurance evaluators
return confidence 0.0. -/
theorem claim3_zero_required_confidence (patient_responses : Responses) (rule : RuleDoc)
    (service : String) (h : requiredCount rule.requirements = 0) :
    (evaluate_telehealth_eligibility_json patient_responses rule).confidence = 1
    ∧ (evaluate_generic_eligibility_json patient_responses service rule).confidence = 1
    ∧ (evaluate_rpm_eligibility_json patient_responses rule).confidence = 0
    ∧ (evaluate_insurance_eligibility_json patient_responses rule).confidence = 0 := by
  refine ⟨?_, ?_, ?_, ?_⟩ <;>
    simp [evaluate_telehealth_eligibility_json, evaluate_generic_eligibility_json,
      evaluate_rpm_eligibility_json, evaluate_insurance_eligibility_json, h]

/-- C3 counterexample: a rule document with no requirements evaluated for
the rpm service has confidence 0.0, not 1.0. -/
theorem claim3_counterexample :
    requiredCount ({} : RuleDoc).requirements = 0 ∧
      (evaluate_patient_against_rules [("rpm", {})] [] "rpm").confidence ≠ 1 := by
  refine ⟨rfl, by decide⟩

/-- C3 witness: the amended statement at the empty rule document. -/
theorem claim3_witness :
    (evaluate_telehealth_eligibility_json [] {}).confidence = 1
    ∧ (evaluate_generic_eligibility_json [] "pharmacy" {}).confidence = 1
    ∧ (evaluate_rpm_eligibility_json [] {}).confidence = 0
    ∧ (evaluate_insurance_eligibility_json [] {}).confidence = 0 :=
  claim3_zero_required_confidence [] {} "pharmacy" rfl

/-! ## Claim C4 -/

/-- The lower-bound check holds iff every present nonzero lower bound is at
most the value. -/
theorem lowOk_iff (b : Option Rat) (q : Rat) :
    lowOk b q = true ↔ ∀ m, b = some m → m ≠ 0 → m ≤ q := by
  cases b with
  | none => simp [lowOk]
  | some m =>
      by_cases hm : m = 0
      · subst hm; simp [lowOk]
      · simp [lowOk, hm, not_lt]

/-- The upper-bound check holds iff the value is at most every present
nonzero upper bound. -/
theorem highOk_iff (b : Option Rat) (q : Rat) :
    highOk b q = true ↔ ∀ m, b = some m → m ≠ 0 → q ≤ m := by
  cases b with
  | none => simp [highOk]
  | some m =>
      by_cases hm : m = 0
      · subst hm; simp [highOk]
      · simp [highOk, hm, not_lt]

/-- C4 (amended): the numeric matcher is total (the parse failure is caught,
never propagated); a truthy value that does not parse as a number is "not
met"; a falsy value (missing key, None, False, 0, "") is coerced to the
number 0 rather than failing; and a bound is enforced only when it is
present and nonzero — for a value coerced to the number `q`, met holds iff
`q` satisfies every present nonzero bound. -/
theorem claim4_numeric_range (patient_responses : Responses) (req_name : String)
    (req_config : ReqConfig) (h : req_config.type_ = "number") :
    ((check_requirement patient_responses req_name req_config).1 =
      checkNumberReq req_config ((alistGet patient_responses req_name).getD VNone))
    ∧ (∀ pv : Value, truthy pv = true → pyFloat pv = none →
        checkNumberReq req_config pv = false)
    ∧ (∀ pv : Value, truthy pv = false → checkNumberReq req_config pv =
        checkNumberReq req_config (VInt 0))
    ∧ (∀ (pv : Value) (q : Rat),
        (if truthy pv then pyFloat pv else some 0) = some q →
        (checkNumberReq req_config pv = true ↔
          (∀ m, req_config.min_value = some m → m ≠ 0 → m ≤ q) ∧
          (∀ m, req_config.max_value = some m → m ≠ 0 → q ≤ m))) := by
  refine ⟨by simp [check_requirement, h], ?_, ?_, ?_⟩
  · intro pv hpv hnone
    simp [checkNumberReq, hpv, hnone]
  · intro pv hpv
    have h0 : checkNumberReq req_config (VInt 0) =
        (lowOk req_config.min_value 0 && highOk req_config.max_value 0) := rfl
    rw [h0]
    simp [checkNumberReq, hpv]
  · intro pv q hq
    simp only [checkNumberReq, hq, Bool.and_eq_true]
    rw [lowOk_iff, highOk_iff]

/-- C4 counterexample: with no bounds configured and the key absent from the
responses (a value that cannot be parsed as a number), the matcher reports
met = true, not false. -/
theorem claim4_counterexample :
    (check_requirement [] "age" { required := true, type_ := "number" }).1 = true
    ∧ pyFloat VNone = none
    ∧ (alistGet ([] : Responses) "age").isNone = true := by
  refine ⟨rfl, rfl, rfl⟩

/-- C4 witness: an unparseable truthy string yields met = false. -/
theorem claim4_witness :
    checkNumberReq { required := true, type_ := "number", min_value := some 18 }
        (VStr "abc") = false :=
  (claim4_numeric_range [] "age"
    { required := true, type_ := "number", min_value := some 18 } rfl).2.1
    (VStr "abc") rfl rfl

/-! ## Claim C5 -/

/-- C5: for the insurance service (with a nonempty required set, so the
ratio is defined), confidence is the blend
`0.7 * (met/total) + 0.3 * (enrollment_window_eligible ? 1 : 0)`, being
qualified requires enrollment eligibility in addition to all requirements,
and the enrollment check is true both when a qualifying-event keyword occurs
in the concatenated responses and by the assumed-true default otherwise. -/
theorem claim5_insurance_blend (patient_responses : Responses) (rule : RuleDoc)
    (h : 0 < requiredCount rule.requirements) :
    ((evaluate_insurance_eligibility_json patient_responses rule).confidence =
      7 / 10 * (((checkRequiredReqs patient_responses rule.requirements).1.length : Rat) /
          (requiredCount rule.requirements : Rat)) +
        3 / 10 *
          (if (check_enrollment_period patient_responses
              rule.special_enrollment_qualifying_events).1 then 1 else 0))
    ∧ ((evaluate_insurance_eligibility_json patient_responses rule).qualified = true →
        (check_enrollment_period patient_responses
            rule.special_enrollment_qualifying_events).1 = true ∧
          (evaluate_insurance_eligibility_json patient_responses rule).missing_criteria = [])
    ∧ (check_enrollment_period patient_responses
        rule.special_enrollment_qualifying_events).1 = true := by
  have he := check_enrollment_period_always_true patient_responses
    rule.special_enrollment_qualifying_events
  refine ⟨?_, ?_, he⟩
  · simp only [evaluate_insurance_eligibility_json, he, if_pos h, if_true]
    ring
  · intro hq
    exact ⟨he, (insurance_qualified_iff patient_responses rule).mp hq⟩

/-- An insurance rule document for the C5 witness, mirroring the spec
scenario. -/
def insuranceDocEx : RuleDoc :=
  { requirements :=
      [("household_income",
        { required := true, type_ := "boolean", question := "What is your household income?" })],
    special_enrollment_qualifying_events := ["lost job coverage"] }

/-- C5 witness: the enrollment-window conjunct at the spec's scenario input. -/
theorem claim5_witness :
    (check_enrollment_period
        [("situation", VStr "I lost my job last month and had coverage through my employer")]
        insuranceDocEx.special_enrollment_qualifying_events).1 = true :=
  (claim5_insurance_blend
    [("situation", VStr "I lost my job last month and had coverage through my employer")]
    insuranceDocEx (by decide)).2.2

/-! ## Claim C6 -/

/-- C6: when the normalized service key has no rule document in the store,
the evaluation returns (totally, never raising) the zero-confidence
not-qualified result with the explanatory reasoning string. -/
theorem claim6_unknown_service (rules : List (String × RuleDoc))
    (patient_responses : Responses) (service : String)
    (h : alistGet rules (normalize_service_name service) = none) :
    evaluate_patient_against_rules rules patient_responses service =
      { service := service, qualified := false, confidence := 0,
        reasoning := "No rules found for service: " ++ service,
        next_questions := [], fallback_options := [],
        missing_criteria := ["service_definition"], decision_trail := none } := by
  simp [evaluate_patient_against_rules, h]

/-- C6 witness: an empty rule store at the service name "emergency". -/
theorem claim6_witness :
    evaluate_patient_against_rules [] [] "emergency" =
      { service := "emergency", qualified := false, confidence := 0,
        reasoning := "No rules found for service: " ++ "emergency",
        next_questions := [], fallback_options := [],
        missing_criteria := ["service_definition"], decision_trail := none } :=
  claim6_unknown_service [] [] "emergency" rfl

/-! ## Claim C7 -/

/-- The question generator emits at most one question. -/
theorem generate_next_questions_length_le (patient_responses : Responses)
    (requirements : List (String × ReqConfig)) (missing_criteria : List String) :
    (generate_next_questions_json patient_responses requirements missing_criteria).length ≤ 1 := by
  unfold generate_next_questions_json
  cases missing_criteria with
  | nil => simp
  | cons a l =>
      simp only [List.take_succ_cons, List.take_zero, List.filterMap_cons]
      cases hf : (if ((alistGet requirements a).getD {}).question != "" then
          some (format_question_with_options ((alistGet requirements a).getD {}).question
            ((alistGet requirements a).getD {}) a) else none) <;> simp [hf]

/-- C7: every evaluation returns at most one next question. -/
theorem claim7_at_most_one_question (rules : List (String × RuleDoc))
    (patient_responses : Responses) (service : String) :
    (evaluate_patient_against_rules rules patient_responses service).next_questions.length
      ≤ 1 := by
  unfold evaluate_patient_against_rules
  cases h : alistGet rules (normalize_service_name service) with
  | none => simp [h]
  | some rule =>
      simp only [h]
      split_ifs
      · simpa [evaluate_rpm_eligibility_json] using
          generate_next_questions_length_le patient_responses rule.requirements
            (checkRequiredReqs patient_responses rule.requirements).2.1
      · simpa [evaluate_telehealth_eligibility_json] using
          generate_next_questions_length_le patient_responses rule.requirements
            (checkRequiredReqs patient_responses rule.requirements).2.1
      · simpa [evaluate_insurance_eligibility_json] using
          generate_next_questions_length_le patient_responses rule.requirements
            (checkRequiredReqs patient_responses rule.requirements).2.1
      · unfold evaluate_emergency_screening_json
        cases hc : firstSymptomMatch patient_responses rule.critical_emergency_symptoms with
        | some p => obtain ⟨c, d⟩ := p; simp
        | none =>
            cases hu : firstSymptomMatch patient_responses rule.urgent_but_not_emergency with
            | some p => obtain ⟨c, d⟩ := p; simp
            | none => simp
      · simpa [evaluate_generic_eligibility_json] using
          generate_next_questions_length_le patient_responses rule.requirements
            (checkRequiredReqs patient_responses rule.requirements).2.1

/-! ## Claim C8 -/

/-- The service-flow loop never selects an already-asked question id. -/
theorem selectServiceQuestion_not_asked (ctx : AssessContext)
    (question_categories : List (String × QuestionCategory)) (ids : List String)
    (qid text : String)
    (h : selectServiceQuestion ctx question_categories ids = some (qid, text)) :
    ctx.asked_questions.contains qid = false := by
  induction ids with
  | nil => cases h
  | cons question_id rest ih =>
      unfold selectServiceQuestion at h
      by_cases hc : (unanswered ctx question_id &&
          !ctx.asked_questions.contains question_id) = true
      · rw [if_pos hc] at h
        rcases Bool.and_eq_true .. |>.mp hc with ⟨_, hna⟩
        cases hfind : find_question_by_id question_categories question_id with
        | none => rw [hfind] at h; exact ih h
        | some question_text =>
            rw [hfind] at h
            have h2 : (if (question_text != "") = true then
                  some (question_id, question_text)
                else selectServiceQuestion ctx question_categories rest) =
                  some (qid, text) := h
            by_cases ht : (question_text != "") = true
            · rw [if_pos ht] at h2
              injection h2 with h3
              cases h3
              simpa using hna
            · rw [if_neg ht] at h2; exact ih h2
      · rw [if_neg hc] at h; exact ih h

/-- One category's question loop never selects an already-asked id. -/
theorem selectFromQuestions_not_asked (ctx : AssessContext) (qs : List AQuestion)
    (qid text : String) (h : selectFromQuestions ctx qs = some (qid, text)) :
    ctx.asked_questions.contains qid = false := by
  induction qs with
  | nil => cases h
  | cons q rest ih =>
      unfold selectFromQuestions at h
      by_cases hc : (unanswered ctx q.id && !ctx.asked_questions.contains q.id) = true
      · rw [if_pos hc] at h
        rcases Bool.and_eq_true .. |>.mp hc with ⟨_, hna⟩
        injection h with h'
        cases h'
        simpa using hna
      · rw [if_neg hc] at h; exact ih h

/-- The priority-category loop never selects an already-asked id. -/
theorem selectPriorityQuestion_not_asked (ctx : AssessContext)
    (question_categories : List (String × QuestionCategory)) (cats : List String)
    (qid text : String)
    (h : selectPriorityQuestion ctx question_categories cats = some (qid, text)) :
    ctx.asked_questions.contains qid = false := by
  induction cats with
  | nil => cases h
  | cons category rest ih =>
      unfold selectPriorityQuestion at h
      cases hcat : alistGet question_categories category with
      | none => rw [hcat] at h; exact ih h
      | some cat =>
          rw [hcat] at h
          have h2 : (match selectFromQuestions ctx cat.questions with
              | some r => some r
              | none => selectPriorityQuestion ctx question_categories rest) =
                some (qid, text) := h
          cases hsel : selectFromQuestions ctx cat.questions with
          | none => rw [hsel] at h2; exact ih h2
          | some r =>
              rw [hsel] at h2
              injection h2 with h3
              subst h3
              exact selectFromQuestions_not_asked ctx cat.questions qid text hsel

/-- C8: whenever the question selector picks a question, that question's id
is not in the asked ledger, the returned question list is exactly its text,
and the ledger of the returned context has been extended with the id. -/
theorem claim8_no_repeat_question (asmt : AssessmentRules) (ctx : AssessContext)
    (service_type : Option String) (qid text : String)
    (h : selectAssessmentQuestion asmt ctx service_type = some (qid, text)) :
    ctx.asked_questions.contains qid = false
    ∧ get_questions_from_json_db asmt ctx service_type =
        ([text], { ctx with asked_questions := ctx.asked_questions ++ [qid] })
    ∧ qid ∈ (get_questions_from_json_db asmt ctx service_type).2.asked_questions := by
  refine ⟨?_, ?_, ?_⟩
  · unfold selectAssessmentQuestion at h
    cases hflow : selectFromServiceFlow asmt ctx (service_type.map normalize_service_name) with
    | some r =>
        rw [hflow] at h
        injection h with h'
        subst h'
        cases hmap : service_type.map normalize_service_name with
        | none =>
            rw [hmap] at hflow
            have habs : (none : Option (String × String)) = some (qid, text) := hflow
            cases habs
        | some service_key =>
            rw [hmap] at hflow
            unfold selectFromServiceFlow at hflow
            have hflow1 : (match alistGet asmt.service_specific service_key with
                | some required_questions =>
                    selectServiceQuestion ctx asmt.question_categories required_questions
                | none => none) = some (qid, text) := hflow
            cases hsvc : alistGet asmt.service_specific service_key with
            | none =>
                rw [hsvc] at hflow1
                have habs : (none : Option (String × String)) = some (qid, text) := hflow1
                cases habs
            | some required_questions =>
                rw [hsvc] at hflow1
                have hflow2 : selectServiceQuestion ctx asmt.question_categories
                    required_questions = some (qid, text) := hflow1
                exact selectServiceQuestion_not_asked ctx asmt.question_categories
                  required_questions qid text hflow2
    | none =>
        rw [hflow] at h
        exact selectPriorityQuestion_not_asked ctx asmt.question_categories
          priorityCategories qid text h
  · unfold get_questions_from_json_db
    rw [h]
  · unfold get_questions_from_json_db
    rw [h]
    simp

/-- An assessment database and context for the C8 witness. -/
def asmtEx : AssessmentRules :=
  { question_categories :=
      [("age", { questions := [{ id := "age", text := "What is your age?" }] })] }

/-- C8 witness: with an empty ledger the selector picks the age question,
returns it, and marks it asked. -/
theorem claim8_witness :
    ({ answers := [], asked_questions := [] } : AssessContext).asked_questions.contains "age"
        = false
    ∧ get_questions_from_json_db asmtEx { answers := [], asked_questions := [] } none =
        (["What is your age?"],
          { answers := [], asked_questions := [] ++ ["age"] })
    ∧ "age" ∈ (get_questions_from_json_db asmtEx
        { answers := [], asked_questions := [] } none).2.asked_questions :=
  claim8_no_repeat_question asmtEx { answers := [], asked_questions := [] } none
    "age" "What is your age?" rfl

/-! ## Claim C9 -/

/-- C9: a `"boolean"` requirement is met exactly when the raw response value
is Python-truthy — so any nonempty string (including "no" and "false")
counts as met, while a missing key, None, False, 0, and "" do not. -/
theorem claim9_boolean_truthiness (patient_responses : Responses) (req_name : String)
    (req_config : ReqConfig) (h : req_config.type_ = "boolean") :
    (check_requirement patient_responses req_name req_config).1 =
      truthy ((alistGet patient_responses req_name).getD VNone)
    ∧ truthy (VStr "no") = true ∧ truthy (VStr "false") = true
    ∧ truthy VNone = false ∧ truthy (VBool false) = false
    ∧ truthy (VInt 0) = false ∧ truthy (VStr "") = false := by
  refine ⟨by simp [check_requirement, h], rfl, rfl, rfl, rfl, by decide, rfl⟩

/-- C9 witness: the negative answer "no" is reported as met. -/
theorem claim9_witness :
    (check_requirement [("consent_monitoring", VStr "no")] "consent_monitoring"
        { required := true, type_ := "boolean" }).1 =
      truthy ((alistGet [("consent_monitoring", VStr "no")] "consent_monitoring").getD VNone)
    ∧ truthy (VStr "no") = true ∧ truthy (VStr "false") = true
    ∧ truthy VNone = false ∧ truthy (VBool false) = false
    ∧ truthy (VInt 0) = false ∧ truthy (VStr "") = false :=
  claim9_boolean_truthiness [("consent_monitoring", VStr "no")] "consent_monitoring"
    { required := true, type_ := "boolean" } rfl

/-! ## Claim C10 -/

/-- C10: a `"number"` requirement whose bounds are both absent or zero is
met even when the key is absent from the responses: the missing value is
coerced to 0 and falsy bounds are skipped. -/
theorem claim10_number_vacuous (patient_responses : Responses) (req_name : String)
    (req_config : ReqConfig) (h : req_config.type_ = "number")
    (hmin : req_config.min_value = none ∨ req_config.min_value = some 0)
    (hmax : req_config.max_value = none ∨ req_config.max_value = some 0)
    (hmiss : alistGet patient_responses req_name = none) :
    (check_requirement patient_responses req_name req_config).1 = true := by
  have hbase : (check_requirement patient_responses req_name req_config).1 =
      checkNumberReq req_config VNone := by
    simp [check_requirement, h, hmiss]
  rw [hbase]
  rcases hmin with hm | hm <;> rcases hmax with hx | hx <;>
    simp [checkNumberReq, truthy, lowOk, highOk, hm, hx]

/-- C10 witness: an unbounded number requirement with the key absent. -/
theorem claim10_witness :
    (check_requirement [] "recent_hospitalization_count"
        { required := true, type_ := "number" }).1 = true :=
  claim10_number_vacuous [] "recent_hospitalization_count"
    { required := true, type_ := "number" } rfl (Or.inl rfl) (Or.inl rfl) rfl

end HealthSmart
